import Mathlib

/-!
Verification of the device-communication layer of the Arctis Nova Pro
Wireless driver (`src/arctis_chatmix/devices/device_arctis_nova_pro_wireless.py`).

The Python driver is shallowly embedded: bytes are `Nat`, Python floats are
modelled by `ℚ` (every concrete value appearing in the claims is exactly
representable), the driver's mutable fields `game_mix`/`chat_mix` become an
explicit `DriverState` threaded through `manage_input_data`, and the USB
writes performed by `init_device` become an explicit event trace.

The `device_manager` support module (`DeviceStatusValue`, `ChatMixState`,
`DeviceStatus`, `InterfaceEndpoint`, the error taxonomy) is part of this
repository but not under `src/`; those parts are modelled from the spec and
are marked `Modelled from the spec:` in their doc comments.
-/

namespace ArctisNovaProWireless

/-- USB interface/endpoint pair, from `InterfaceEndpoint` (spec §3
`EndpointAddress`; the direction is implicit in how the driver uses it). -/
structure InterfaceEndpoint where
  interface : Nat
  endpoint : Nat
deriving DecidableEq, Repr

/-- Modelled from the spec: `DeviceStatusValue.interpretation` is "either a
symbolic label drawn from a fixed enumeration domain, or a numeric value
produced by a pure transform of rawValue" (§3); the numeric transform is
evaluated when the field is decoded. The `device_manager` module defining
the Python class is not under `src/`. -/
inductive Interp where
  | label (s : String)
  | num (q : ℚ)
deriving DecidableEq, Repr

/-- A decoded field: the raw byte plus its interpretation
(`DeviceStatusValue(value, mapped_val)` in the Python source). -/
structure DeviceStatusValue where
  value : Nat
  mapped_val : Interp
deriving DecidableEq, Repr

/-- The 14-field status snapshot built from one `(0x06, 0xb0)` report
(`DeviceStatus` keyword arguments in `manage_input_data`). -/
structure DeviceStatus where
  bluetooth_powerup_state : DeviceStatusValue
  bluetooth_auto_mute : DeviceStatusValue
  bluetooth_power_status : DeviceStatusValue
  bluetooth_connection : DeviceStatusValue
  headset_battery_charge : DeviceStatusValue
  charge_slot_battery_charge : DeviceStatusValue
  transparent_noise_cancelling_level : DeviceStatusValue
  mic_status : DeviceStatusValue
  noise_cancelling : DeviceStatusValue
  mic_led_brightness : DeviceStatusValue
  auto_off_time_minutes : DeviceStatusValue
  wireless_mode : DeviceStatusValue
  wireless_pairing : DeviceStatusValue
  headset_power_status : DeviceStatusValue
deriving DecidableEq, Repr

/-- The per-report result (`ChatMixState` constructor call at the end of
`manage_input_data`). Mix fractions and volumes are Python floats, modelled
by `ℚ`. -/
structure ChatMixState where
  game_volume : ℚ
  chat_volume : ℚ
  game_mix : ℚ
  chat_mix : ℚ
  device_status : Option DeviceStatus
deriving DecidableEq, Repr

/-- The driver instance's mutable session state: class fields
`game_mix: int = None` and `chat_mix: int = None`. `none` models Python
`None` (never assigned yet). -/
structure DriverState where
  game_mix : Option ℚ
  chat_mix : Option ℚ
deriving DecidableEq, Repr

/-- Modelled from the spec: the error taxonomy (§7) defines
`ProtocolViolation` — "a decoded field holds a value outside its defined
domain (e.g., inactivity-timeout raw code outside 0–6) — must not be
silently coerced; surfaced as a decoding failure for that report". The
error classes live in the `device_manager` module, not under `src/`. -/
inductive ProtoError where
  | protocolViolation
deriving DecidableEq, Repr

/-- The module-level lookup table `INACTIVE_TIME_MINUTES`
({0:0, 1:1, 2:5, 3:10, 4:15, 5:30, 6:60}); a key outside 0–6 is absent
(Python dict lookup fails), hence `Option`. -/
def INACTIVE_TIME_MINUTES : Nat → Option Nat
  | 0 => some 0
  | 1 => some 1
  | 2 => some 5
  | 3 => some 10
  | 4 => some 15
  | 5 => some 30
  | 6 => some 60
  | _ => none

/-- Round to the nearest integer, ties to even — Python `round`'s rounding
mode on exactly representable inputs (every input arising from the decode
transforms is exact in binary floating point at the tie points). -/
def roundHalfEven (q : ℚ) : ℤ :=
  let f : ℤ := ⌊q⌋
  if q - f < 1 / 2 then f
  else if (1 : ℚ) / 2 < q - f then f + 1
  else if f % 2 = 0 then f else f + 1

/-- Python `round(x, 2)`: round to 2 decimal places, ties to even. -/
def round2 (q : ℚ) : ℚ := (roundHalfEven (q * 100) : ℚ) / 100

/-- Python `round(x, 0)`: round to 0 decimal places, ties to even. -/
def round0 (q : ℚ) : ℚ := (roundHalfEven q : ℚ)

/-- The `ChatMixState(...)` value returned at the end of
`manage_input_data`: `volume = 1` for both channels, and each mix fraction
is the stored field when set, else `1`. -/
def mkReturnState (st : DriverState) (ds : Option DeviceStatus) : ChatMixState :=
  { game_volume := 1
    chat_volume := 1
    game_mix := st.game_mix.getD 1
    chat_mix := st.chat_mix.getD 1
    device_status := ds }

/-- Decoding of a `(0x06, 0xb0)` status report: the `DeviceStatus(...)`
construction in `manage_input_data`, field by field. Indexing `data[i]` is
`data.getD i 0` (all uses are guarded by `len(data) >= 16`). The
`auto_off_time_minutes` transform `INACTIVE_TIME_MINUTES[x]` is undefined
outside 0–6; per the spec (§7) that failure surfaces as a decoding failure
for the whole report (`ProtoError.protocolViolation`), constructed
atomically. -/
def decodeStatus (data : List Nat) : Except ProtoError DeviceStatus :=
  let d := fun i => data.getD i 0
  match INACTIVE_TIME_MINUTES (d 12) with
  | none => .error .protocolViolation
  | some minutes => .ok
    { bluetooth_powerup_state :=
        ⟨d 2, .label (if d 2 = 0x00 then "on_off.off" else "on_off.on")⟩
      bluetooth_auto_mute :=
        ⟨d 3, .label (if d 3 = 0x00 then "on_off.off"
          else if d 3 = 0x01 then "db.-12db" else "on_off.on")⟩
      bluetooth_power_status :=
        ⟨d 4, .label (if d 4 = 0x01 then "on_off.off" else "on_off.on")⟩
      bluetooth_connection :=
        ⟨d 5, .label (if d 5 = 0x00 then "on_off.off"
          else if d 5 = 0x01 then "connection.connected"
          else "connection.disconnected")⟩
      headset_battery_charge := ⟨d 6, .num (round2 ((d 6 : ℚ) / 8))⟩
      charge_slot_battery_charge := ⟨d 7, .num (round2 ((d 7 : ℚ) / 8))⟩
      transparent_noise_cancelling_level := ⟨d 8, .num (round0 ((d 8 : ℚ) / 10))⟩
      mic_status :=
        ⟨d 9, .label (if d 9 = 0x00 then "mic_status.unmuted" else "mic_status.muted")⟩
      noise_cancelling :=
        ⟨d 10, .label (if d 10 = 0x00 then "off"
          else if d 10 = 0x01 then "transparent" else "on")⟩
      mic_led_brightness := ⟨d 11, .num ((d 11 : ℚ) / 10)⟩
      auto_off_time_minutes := ⟨d 12, .num (minutes : ℚ)⟩
      wireless_mode :=
        ⟨d 13, .label (if d 13 = 0x00 then "wireless_mode.speed" else "wireless_mode.range")⟩
      wireless_pairing :=
        ⟨d 14, .label (if d 14 = 0x01 then "pairing.not_paired"
          else if d 13 = 0x04 then "pairing.paired_offline"
          else "connection.connected")⟩
      headset_power_status :=
        ⟨d 15, .label (if d 15 = 0x01 then "connection.offline"
          else if d 14 = 0x02 then "connection.cable_charging"
          else "connection.online")⟩ }

/-- `manage_input_data(self, data, endpoint)`: classifies the report by its
leading bytes when it arrives on `InterfaceEndpoint(7, 0)`, updates the
stored mix fractions only in the `(0x07, 0x45)` branch, and returns the
(possibly updated) driver state together with the `ChatMixState`. A
decoding failure (`ProtocolViolation`) propagates out of the status branch
before any state change, so the driver state is returned untouched
alongside the error. -/
def manage_input_data (st : DriverState) (data : List Nat)
    (endpoint : InterfaceEndpoint) : DriverState × Except ProtoError ChatMixState :=
  if endpoint = ⟨7, 0⟩ then
    if 2 ≤ data.length ∧ data.getD 0 0 = 0x07 ∧ data.getD 1 0 = 0x25 then
      -- Volume control is managed by the GameDAC: `pass`
      (st, .ok (mkReturnState st none))
    else if 4 ≤ data.length ∧ data.getD 0 0 = 0x07 ∧ data.getD 1 0 = 0x45 then
      let st' : DriverState :=
        { game_mix := some ((data.getD 2 0 : ℚ) / 100)
          chat_mix := some ((data.getD 3 0 : ℚ) / 100) }
      (st', .ok (mkReturnState st' none))
    else if 16 ≤ data.length ∧ data.getD 0 0 = 0x06 ∧ data.getD 1 0 = 0xb0 then
      match decodeStatus data with
      | .error e => (st, .error e)
      | .ok ds => (st, .ok (mkReturnState st (some ds)))
    else
      (st, .ok (mkReturnState st none))
  else
    (st, .ok (mkReturnState st none))

/-- `packet_0_filler(packet, size)`: the packet followed by zeros up to
`size` bytes (`range` of a negative count is empty; `Nat` subtraction
matches that). -/
def packet_0_filler (packet : List Nat) (size : Nat) : List Nat :=
  packet ++ List.replicate (size - packet.length) 0

/-- One entry of the `commands` table in `init_device`: the command bytes
and the `expects response` flag. -/
structure Command where
  bytes : List Nat
  expectsResponse : Bool
deriving DecidableEq, Repr

/-- The literal `commands` table of `init_device`, in source order. -/
def initCommands : List Command :=
  [ ⟨[0x06, 0x20], true⟩
  , ⟨[0x06, 0x20], true⟩
  , ⟨[0x06, 0x10], true⟩
  , ⟨[0x06, 0x10], true⟩
  , ⟨[0x06, 0x10], true⟩
  , ⟨[0x06, 0x3b], false⟩
  , ⟨[0x06, 0x8d, 0x01], true⟩
  , ⟨[0x06, 0x20], true⟩
  , ⟨[0x06, 0x20], true⟩
  , ⟨[0x06, 0x20], true⟩
  , ⟨[0x06, 0x80], true⟩
  , ⟨[0x06, 0x3b], false⟩
  , ⟨[0x06, 0x8d, 0x01], false⟩
  , ⟨[0x06, 0x33, 0x14, 0x14, 0x14], false⟩
  , ⟨[0x06, 0xc3, 0x00], false⟩
  , ⟨[0x06, 0x2e, 0x00], false⟩
  , ⟨[0x06, 0xc1, 0x05], false⟩
  , ⟨[0x06, 0x85, 0x0a], false⟩
  , ⟨[0x06, 0x37, 0x0a], false⟩
  , ⟨[0x06, 0xb2], false⟩
  , ⟨[0x06, 0x47, 0x64, 0x00, 0x64], false⟩
  , ⟨[0x06, 0x83, 0x01], false⟩
  , ⟨[0x06, 0x89, 0x00], false⟩
  , ⟨[0x06, 0x27, 0x02], false⟩
  , ⟨[0x06, 0xb3, 0x00], false⟩
  , ⟨[0x06, 0x39, 0x00], false⟩
  , ⟨[0x06, 0xbf, 0x0a], false⟩
  , ⟨[0x06, 0x43, 0x01], false⟩
  , ⟨[0x06, 0x69, 0x00], false⟩
  , ⟨[0x06, 0x3b, 0x00], false⟩
  , ⟨[0x06, 0x8d, 0x01], false⟩
  , ⟨[0x06, 0x49, 0x01], false⟩
  , ⟨[0x06, 0xb7, 0x00], false⟩
  , ⟨[0x06, 0xb7, 0x00], true⟩
  , ⟨[0x06, 0xb7, 0x00], true⟩
  , ⟨[0x06, 0xb0, 0x00], true⟩
  , ⟨[0x06, 0x20, 0x00], true⟩
  , ⟨[0x06, 0xb7, 0x00], true⟩ ]

/-- An observable USB transfer performed by `init_device`: either a write of
one padded frame to the command endpoint, or a read of one acknowledgement
from the device. -/
inductive InitEvent where
  | write (frame : List Nat)
  | readAck
deriving DecidableEq, Repr

/-- Whether an init event is an acknowledgement read. -/
def InitEvent.isRead : InitEvent → Bool
  | .readAck => true
  | .write _ => false

/-- The loop body of `init_device`: for each table entry, one
`self.device.write(..., packet_0_filler(command[0], 91))`. The source
ignores responses ("Ignore the responses for now"), so the trace contains
writes only. -/
def init_device : List Command → List InitEvent
  | [] => []
  | c :: rest => .write (packet_0_filler c.bytes 91) :: init_device rest

/-- Modelled from the spec: the trace `init_device` would produce under
§4.2's words — each command written in order, and for a command whose
`expectsResponse` flag is true, "acknowledgement must be read and discarded
... before the next command is sent". Used only to compare against the
trace the source actually produces. -/
def specInitTraceWithAcks : List InitEvent :=
  initCommands.foldr
    (fun c acc =>
      .write (packet_0_filler c.bytes 91) ::
        (if c.expectsResponse then .readAck :: acc else acc))
    []

/-- One configurable setting (`SliderSetting` / `ToggleSetting` from
`device_settings`). The Python `on_change` callback is the placeholder
`lambda x: print(x)` on every setting, identical across the catalog, and is
not part of the compared data. -/
inductive DeviceSetting where
  | slider (key min_label max_label : String)
      (min_value max_value step current : Nat)
  | toggle (key off_label on_label : String) (current : Bool)
deriving DecidableEq, Repr

/-- `get_configurable_settings(self, state=None)`: the literal catalog.
The `state` argument is unused in the source ("TODO: depend on state for
default values"); insertion order of the Python dict is kept as list
order. -/
def get_configurable_settings (_state : Option DeviceStatus) :
    List (String × List DeviceSetting) :=
  [ ("microphone",
      [ .slider "mic_volume" "mic_volume_muted" "mic_volume_max" 0x01 0x10 1 0x10
      , .slider "mic_side_tone" "mic_side_tone_none" "mic_side_tone_high" 0x00 0x03 1 0x00
      , .toggle "mic_gain" "mic_gain_low" "mic_gain_high" true ])
  , ("anc",
      [ .slider "anc_level" "anc_level_low" "anc_level_high" 0x00 0x03 1 0x00 ])
  , ("power_management",
      [ .slider "pm_shutdown" "pm_shutdown_disabled" "pm_shutdown_60_minutes" 0x00 0x06 1 0x04 ])
  , ("wireless",
      [ .toggle "wireless_mode" "wireless_mode_speed" "wireless_mode_range" false ]) ]

/-- Expected dispatch result for the all-zero 16-byte status report
`[0x06, 0xb0, 0, ..., 0]`: a concrete decoded snapshot used as a test
vector. -/
def statusAllZeroResult : ChatMixState :=
  { game_volume := 1, chat_volume := 1, game_mix := 1, chat_mix := 1,
    device_status := some
      { bluetooth_powerup_state := ⟨0, .label "on_off.off"⟩
        bluetooth_auto_mute := ⟨0, .label "on_off.off"⟩
        bluetooth_power_status := ⟨0, .label "on_off.on"⟩
        bluetooth_connection := ⟨0, .label "on_off.off"⟩
        headset_battery_charge := ⟨0, .num 0⟩
        charge_slot_battery_charge := ⟨0, .num 0⟩
        transparent_noise_cancelling_level := ⟨0, .num 0⟩
        mic_status := ⟨0, .label "mic_status.unmuted"⟩
        noise_cancelling := ⟨0, .label "off"⟩
        mic_led_brightness := ⟨0, .num 0⟩
        auto_off_time_minutes := ⟨0, .num 0⟩
        wireless_mode := ⟨0, .label "wireless_mode.speed"⟩
        wireless_pairing := ⟨0, .label "connection.connected"⟩
        headset_power_status := ⟨0, .label "connection.online"⟩ } }

/-- Decidable equality for `Except` results, so ground facts about
`manage_input_data` can be settled by evaluation. -/
instance {ε α : Type} [DecidableEq ε] [DecidableEq α] : DecidableEq (Except ε α) :=
  fun a b =>
    match a, b with
    | .error x, .error y => decidable_of_iff (x = y) (by simp)
    | .ok x, .ok y => decidable_of_iff (x = y) (by simp)
    | .error _, .ok _ => isFalse (by simp)
    | .ok _, .error _ => isFalse (by simp)

/-- The inactivity table has no entry for raw codes 7 and above. -/
lemma inactive_time_minutes_eq_none (n : Nat) (h : 7 ≤ n) :
    INACTIVE_TIME_MINUTES n = none := by
  obtain ⟨m, rfl⟩ : ∃ m, n = m + 7 := ⟨n - 7, by omega⟩
  rfl

/-- The inactivity table is total on raw codes 0–6. -/
lemma inactive_time_minutes_isSome (n : Nat) (h : n ≤ 6) :
    ∃ m, INACTIVE_TIME_MINUTES n = some m := by
  interval_cases n <;> exact ⟨_, rfl⟩

/-- The init loop emits exactly one write per table entry, in order. -/
lemma init_device_eq_map (cs : List Command) :
    init_device cs = cs.map (fun c => InitEvent.write (packet_0_filler c.bytes 91)) := by
  induction cs with
  | nil => rfl
  | cons c rest ih => simp [init_device, ih]

/-- Reduction of `manage_input_data` on a status report: on the monitored
endpoint, a report with leading bytes `(0x06, 0xb0)` and length at least 16
is handled by the status-decoding branch. -/
lemma manage_input_data_status_branch (st : DriverState) (data : List Nat)
    (h16 : 16 ≤ data.length) (h0 : data.getD 0 0 = 0x06) (h1 : data.getD 1 0 = 0xb0) :
    manage_input_data st data ⟨7, 0⟩ =
      match decodeStatus data with
      | .error e => (st, .error e)
      | .ok ds => (st, .ok (mkReturnState st (some ds))) := by
  unfold manage_input_data
  rw [if_pos rfl, if_neg (by rintro ⟨-, h, -⟩; omega), if_neg (by rintro ⟨-, h, -⟩; omega),
    if_pos ⟨h16, h0, h1⟩]

/-- Claim C1: a status report (length ≥ 16, `data[0] = 0x06`,
`data[1] = 0xb0`) whose raw inactivity-timeout code `data[12]` lies outside
0–6 fails decoding with a `ProtocolViolation` at dispatch time — no default
auto-off value is produced, and the driver's stored mix state is returned
unchanged (no `DeviceStatus` replaces the previously decoded one). -/
theorem inactivity_code_out_of_range_rejected (st : DriverState) (data : List Nat)
    (h16 : 16 ≤ data.length) (h0 : data.getD 0 0 = 0x06) (h1 : data.getD 1 0 = 0xb0)
    (h12 : 7 ≤ data.getD 12 0) :
    manage_input_data st data ⟨7, 0⟩ = (st, .error .protocolViolation) := by
  have hd : decodeStatus data = .error .protocolViolation := by
    unfold decodeStatus
    simp only [inactive_time_minutes_eq_none _ h12]
  rw [manage_input_data_status_branch st data h16 h0 h1, hd]

/-- Claim C1 witness: the concrete report with raw inactivity code 7 is
rejected with a `ProtocolViolation` and the state is unchanged. -/
theorem inactivity_code_out_of_range_rejected_witness :
    manage_input_data ⟨none, none⟩
      [0x06, 0xb0, 0, 0, 0, 0, 0, 0, 0, 0, 0, 0, 7, 0, 0, 0] ⟨7, 0⟩ =
      (⟨none, none⟩, .error .protocolViolation) :=
  inactivity_code_out_of_range_rejected ⟨none, none⟩
    [0x06, 0xb0, 0, 0, 0, 0, 0, 0, 0, 0, 0, 0, 7, 0, 0, 0]
    (by decide) (by decide) (by decide) (by decide)

/-- Claim C2 counterexample: on the 16-byte status report with
`data[13] = 0x04` and `data[14] = 0x01`, the decoded `wireless_pairing`
field is `pairing.not_paired`, not `pairing.paired_offline` — the offset-14
test takes priority over the offset-13 one, refuting "paired-offline
regardless of the value at offset 14". -/
theorem pairing_offline_overridden_counterexample :
    (decodeStatus [0x06, 0xb0, 0, 0, 0, 0, 0, 0, 0, 0, 0, 0, 0, 0x04, 0x01, 0]).toOption.map
        (fun ds => ds.wireless_pairing.mapped_val) =
      some (.label "pairing.not_paired") ∧
    Interp.label "pairing.not_paired" ≠ Interp.label "pairing.paired_offline" := by
  decide

/-- Claim C2 amended: for every 16-byte status report with
`data[13] = 0x04`, a decodable inactivity code and `data[14] ≠ 0x01`, the
decoded `wireless_pairing` field is `pairing.paired_offline`; when
`data[14] = 0x01` the offset-14 test takes priority and the field decodes
to `pairing.not_paired` instead. -/
theorem pairing_offline_requires_offset14_ne_one (st : DriverState) (data : List Nat)
    (h16 : 16 ≤ data.length) (h0 : data.getD 0 0 = 0x06) (h1 : data.getD 1 0 = 0xb0)
    (h13 : data.getD 13 0 = 0x04) (h14 : data.getD 14 0 ≠ 0x01)
    (h12 : data.getD 12 0 ≤ 6) :
    ((manage_input_data st data ⟨7, 0⟩).2.toOption.bind (fun r => r.device_status)).map
        (fun ds => ds.wireless_pairing.mapped_val) =
      some (.label "pairing.paired_offline") := by
  obtain ⟨m, hm⟩ := inactive_time_minutes_isSome _ h12
  rw [manage_input_data_status_branch st data h16 h0 h1]
  unfold decodeStatus
  simp only [hm]
  simp only [List.getD_eq_getElem?_getD] at h13 h14
  simp [mkReturnState, Except.toOption, h13, h14]

/-- Claim C2 amended witness: a report with `data[13] = 0x04` and
`data[14] = 0x02` decodes its pairing state to `pairing.paired_offline`. -/
theorem pairing_offline_requires_offset14_ne_one_witness :
    ((manage_input_data ⟨none, none⟩
        [0x06, 0xb0, 0, 0, 0, 0, 0, 0, 0, 0, 0, 0, 0, 0x04, 0x02, 0] ⟨7, 0⟩).2.toOption.bind
        (fun r => r.device_status)).map (fun ds => ds.wireless_pairing.mapped_val) =
      some (.label "pairing.paired_offline") :=
  pairing_offline_requires_offset14_ne_one ⟨none, none⟩
    [0x06, 0xb0, 0, 0, 0, 0, 0, 0, 0, 0, 0, 0, 0, 0x04, 0x02, 0]
    (by decide) (by decide) (by decide) (by decide) (by decide) (by decide)

/-- Claim C3 counterexample: `init_device`'s trace differs from the trace
required by the claim (a discarded acknowledgement read after every
`expectsResponse` command): the actual trace contains no read event at all,
while the table contains 15 commands whose `expectsResponse` flag is set. -/
theorem init_acknowledgements_not_read_counterexample :
    init_device initCommands ≠ specInitTraceWithAcks ∧
    (init_device initCommands).filter InitEvent.isRead = [] ∧
    (initCommands.filter Command.expectsResponse).length = 15 := by
  decide

/-- Claim C3 amended: `init_device` writes the initialization commands
strictly in table order, one frame per entry with no reordering or
batching, but reads no acknowledgement at all — the `expectsResponse` flag
is recorded in the table and ignored ("Ignore the responses for now"). -/
theorem init_writes_in_table_order_without_reads :
    init_device initCommands =
      initCommands.map (fun c => InitEvent.write (packet_0_filler c.bytes 91)) ∧
    (init_device initCommands).filter InitEvent.isRead = [] :=
  ⟨init_device_eq_map initCommands, by decide⟩

/-- Claim C4 counterexample: the mix report `[0x07, 0x45, 200, 75]` is not
rejected — `manage_input_data` succeeds and stores `gameMix = 200/100 = 2`,
a fraction above `1.0`, instead of raising a `ProtocolViolation` for the
out-of-range byte. -/
theorem mix_above_100_not_rejected_counterexample :
    manage_input_data ⟨none, none⟩ [0x07, 0x45, 200, 75] ⟨7, 0⟩ =
      (⟨some 2, some (3 / 4)⟩, .ok ⟨1, 1, 2, 3 / 4, none⟩) ∧
    (1 : ℚ) < 2 := by
  refine ⟨?_, by norm_num⟩
  unfold manage_input_data
  norm_num [mkReturnState]

/-- Claim C4 amended: for every game/chat-mix report (`data[0] = 0x07`,
`data[1] = 0x45`, length ≥ 4) on the monitored endpoint,
`manage_input_data` stores and returns `gameMix = data[2]/100` and
`chatMix = data[3]/100` with `gameVolume = chatVolume = 1` and
`deviceStatus = none`; the fractions lie in `[0, 1]` whenever `data[2]` and
`data[3]` are at most 100, but a byte above 100 is not rejected — it simply
yields a fraction above `1.0` (no error is raised and nothing is clamped). -/
theorem mix_update_computes_fractions (st : DriverState) (data : List Nat)
    (h4 : 4 ≤ data.length) (h0 : data.getD 0 0 = 0x07) (h1 : data.getD 1 0 = 0x45) :
    manage_input_data st data ⟨7, 0⟩ =
      ({ game_mix := some ((data.getD 2 0 : ℚ) / 100)
         chat_mix := some ((data.getD 3 0 : ℚ) / 100) },
       .ok { game_volume := 1, chat_volume := 1,
             game_mix := (data.getD 2 0 : ℚ) / 100,
             chat_mix := (data.getD 3 0 : ℚ) / 100,
             device_status := none }) ∧
    (data.getD 2 0 ≤ 100 → 0 ≤ (data.getD 2 0 : ℚ) / 100 ∧ (data.getD 2 0 : ℚ) / 100 ≤ 1) ∧
    (data.getD 3 0 ≤ 100 → 0 ≤ (data.getD 3 0 : ℚ) / 100 ∧ (data.getD 3 0 : ℚ) / 100 ≤ 1) := by
  refine ⟨?_, fun h => ⟨by positivity, ?_⟩, fun h => ⟨by positivity, ?_⟩⟩
  · unfold manage_input_data
    rw [if_pos rfl, if_neg (by rintro ⟨-, -, h⟩; omega), if_pos ⟨h4, h0, h1⟩]
    rfl
  · rw [div_le_one (by norm_num)]
    exact_mod_cast h
  · rw [div_le_one (by norm_num)]
    exact_mod_cast h

/-- Claim C4 witness (end-to-end scenario 1): the report
`[0x07, 0x45, 50, 75]` yields `gameMix = 1/2`, `chatMix = 3/4`, volumes `1`
and no device status. -/
theorem mix_update_computes_fractions_witness :
    manage_input_data ⟨none, none⟩ [0x07, 0x45, 50, 75] ⟨7, 0⟩ =
      (⟨some (1 / 2), some (3 / 4)⟩, .ok ⟨1, 1, 1 / 2, 3 / 4, none⟩) := by
  have h := (mix_update_computes_fractions ⟨none, none⟩ [0x07, 0x45, 50, 75]
    (by decide) (by decide) (by decide)).1
  rw [h]
  norm_num

/-- Claim C5 counterexample: on the scenario-2 report
`[0x06, 0xb0, 0x00, 0x01, 0x01, 0x01, 64, 64, 30, 0x00, 0x02, 50, 5, 0x01, 0x04, 0x02]`
the code decodes `bluetooth_power_status` to `on_off.off` (byte 4 is `0x01`
and the test is inverted), not "on", and `wireless_pairing` to
`connection.connected` (byte 14 is `0x04`, not `0x01`, and byte 13 is
`0x01`, not `0x04`), not "paired-offline". -/
theorem scenario2_decode_counterexample :
    (decodeStatus
        [0x06, 0xb0, 0x00, 0x01, 0x01, 0x01, 64, 64, 30, 0x00, 0x02, 50, 5, 0x01, 0x04, 0x02]).toOption.map
        (fun ds => (ds.bluetooth_power_status.mapped_val, ds.wireless_pairing.mapped_val)) =
      some (.label "on_off.off", .label "connection.connected") ∧
    Interp.label "connection.connected" ≠ Interp.label "pairing.paired_offline" ∧
    Interp.label "on_off.off" ≠ Interp.label "on_off.on" := by
  decide

/-- Claim C5 amended: the scenario-2 report decodes exactly to:
bluetooth_powerup off, bluetooth_auto_mute "-12dB", bluetooth_power off
(inverted test on byte `0x01`), bluetooth_connection connected,
headset_battery 8, slot_battery 8, anc_level 3, mic unmuted,
noise_cancelling on, mic_led 5, auto_off 30 (code 5), wireless_mode range,
wireless_pairing "connected" (bytes 14/13 are `0x04`/`0x01`, so neither the
not-paired nor the paired-offline case fires) and headset_power online (the
offset-14 cross-read against `0x02` fails since byte 14 is `0x04`); the
stored mix state is unchanged and reported as `1`. -/
theorem scenario2_decode_actual :
    manage_input_data ⟨none, none⟩
      [0x06, 0xb0, 0x00, 0x01, 0x01, 0x01, 64, 64, 30, 0x00, 0x02, 50, 5, 0x01, 0x04, 0x02]
      ⟨7, 0⟩ =
    (⟨none, none⟩, .ok
      { game_volume := 1, chat_volume := 1, game_mix := 1, chat_mix := 1,
        device_status := some
          { bluetooth_powerup_state := ⟨0x00, .label "on_off.off"⟩
            bluetooth_auto_mute := ⟨0x01, .label "db.-12db"⟩
            bluetooth_power_status := ⟨0x01, .label "on_off.off"⟩
            bluetooth_connection := ⟨0x01, .label "connection.connected"⟩
            headset_battery_charge := ⟨64, .num 8⟩
            charge_slot_battery_charge := ⟨64, .num 8⟩
            transparent_noise_cancelling_level := ⟨30, .num 3⟩
            mic_status := ⟨0x00, .label "mic_status.unmuted"⟩
            noise_cancelling := ⟨0x02, .label "on"⟩
            mic_led_brightness := ⟨50, .num 5⟩
            auto_off_time_minutes := ⟨5, .num 30⟩
            wireless_mode := ⟨0x01, .label "wireless_mode.range"⟩
            wireless_pairing := ⟨0x04, .label "connection.connected"⟩
            headset_power_status := ⟨0x02, .label "connection.online"⟩ } }) := by
  rw [manage_input_data_status_branch ⟨none, none⟩ _ (by decide) (by decide) (by decide)]
  unfold decodeStatus
  norm_num [mkReturnState, INACTIVE_TIME_MINUTES, round2, round0, roundHalfEven]

/-- Claim C6: every frame `init_device` writes is the table's command padded
with trailing zeros to exactly 91 bytes — for any command of length at most
91, `packet_0_filler` returns a 91-byte list that starts with the command
bytes and is zero everywhere after them — and the trace of `init_device` on
the canonical table is exactly one write per entry, in table order. -/
theorem init_frames_padded_to_91 (cmd : List Nat) (h : cmd.length ≤ 91) :
    (packet_0_filler cmd 91).length = 91 ∧
    (packet_0_filler cmd 91).take cmd.length = cmd ∧
    (∀ i, cmd.length ≤ i → i < 91 → (packet_0_filler cmd 91).getD i 1 = 0) ∧
    init_device initCommands =
      initCommands.map (fun c => InitEvent.write (packet_0_filler c.bytes 91)) := by
  refine ⟨?_, List.take_left cmd _, ?_, init_device_eq_map initCommands⟩
  · simp only [packet_0_filler, List.length_append, List.length_replicate]
    omega
  · intro i hi hlt
    rw [packet_0_filler, List.getD_eq_getElem?_getD,
      List.getElem?_append_right hi, List.getElem?_replicate_of_lt (by omega)]
    rfl

/-- Claim C6 witness: the first table command `[0x06, 0x20]` pads to a
91-byte frame beginning with its own bytes, and byte 2 of the frame is 0. -/
theorem init_frames_padded_to_91_witness :
    (packet_0_filler [0x06, 0x20] 91).length = 91 ∧
    (packet_0_filler [0x06, 0x20] 91).take 2 = [0x06, 0x20] ∧
    (packet_0_filler [0x06, 0x20] 91).getD 2 1 = 0 := by
  obtain ⟨hlen, htake, hzero, -⟩ := init_frames_padded_to_91 [0x06, 0x20] (by decide)
  exact ⟨hlen, htake, hzero 2 (by decide) (by decide)⟩

/-- Dispatch of the all-zero 16-byte status report from the fresh driver
state succeeds and yields `statusAllZeroResult`. -/
lemma manage_all_zero_report :
    (manage_input_data ⟨none, none⟩
      [0x06, 0xb0, 0, 0, 0, 0, 0, 0, 0, 0, 0, 0, 0, 0, 0, 0] ⟨7, 0⟩).2 =
      .ok statusAllZeroResult := by
  rw [manage_input_data_status_branch ⟨none, none⟩ _ (by decide) (by decide) (by decide)]
  unfold decodeStatus
  norm_num [mkReturnState, statusAllZeroResult, INACTIVE_TIME_MINUTES,
    round2, round0, roundHalfEven]

/-- Claim C7: a report on the monitored endpoint whose leading bytes match
none of the known patterns — `(0x07, 0x25)`; `(0x07, 0x45)` with length ≥ 4;
`(0x06, 0xb0)` with length ≥ 16 — raises no error: the stored mix state is
returned unchanged and the `ChatMixState` carries `device_status = none`
with the previously stored fractions (`1` when never set). -/
theorem unrecognized_report_preserves_state (st : DriverState) (data : List Nat)
    (hv : ¬(2 ≤ data.length ∧ data.getD 0 0 = 0x07 ∧ data.getD 1 0 = 0x25))
    (hm : ¬(4 ≤ data.length ∧ data.getD 0 0 = 0x07 ∧ data.getD 1 0 = 0x45))
    (hs : ¬(16 ≤ data.length ∧ data.getD 0 0 = 0x06 ∧ data.getD 1 0 = 0xb0)) :
    manage_input_data st data ⟨7, 0⟩ =
      (st, .ok { game_volume := 1, chat_volume := 1,
                 game_mix := st.game_mix.getD 1, chat_mix := st.chat_mix.getD 1,
                 device_status := none }) := by
  unfold manage_input_data
  rw [if_pos rfl, if_neg hv, if_neg hm, if_neg hs]
  rfl

/-- Claim C7 witness: the unrecognized report `[1, 2, 3]` leaves previously
stored fractions `1/2` and `1/4` in place and carries no device status. -/
theorem unrecognized_report_preserves_state_witness :
    manage_input_data ⟨some (1 / 2), some (1 / 4)⟩ [1, 2, 3] ⟨7, 0⟩ =
      (⟨some (1 / 2), some (1 / 4)⟩, .ok ⟨1, 1, 1 / 2, 1 / 4, none⟩) :=
  unrecognized_report_preserves_state ⟨some (1 / 2), some (1 / 4)⟩ [1, 2, 3]
    (by decide) (by decide) (by decide)

/-- Claim C8: status decoding is deterministic — two invocations of
`manage_input_data` from the same mix state on byte-for-byte identical
valid 16-byte status reports that both succeed return field-by-field
identical `ChatMixState`s and in particular identical decoded
`DeviceStatus` snapshots. -/
theorem status_decode_deterministic (st : DriverState) (data : List Nat)
    (e : InterfaceEndpoint) (h16 : 16 ≤ data.length)
    (h0 : data.getD 0 0 = 0x06) (h1 : data.getD 1 0 = 0xb0)
    (r1 r2 : ChatMixState)
    (hr1 : (manage_input_data st data e).2 = .ok r1)
    (hr2 : (manage_input_data st data e).2 = .ok r2) :
    r1.device_status = r2.device_status ∧ r1 = r2 := by
  rw [hr1] at hr2
  injection hr2 with h
  subst h
  exact ⟨rfl, rfl⟩

/-- Claim C8 witness: the all-zero status report decodes twice to the same
concrete snapshot. -/
theorem status_decode_deterministic_witness :
    statusAllZeroResult.device_status = statusAllZeroResult.device_status ∧
    statusAllZeroResult = statusAllZeroResult :=
  status_decode_deterministic ⟨none, none⟩
    [0x06, 0xb0, 0, 0, 0, 0, 0, 0, 0, 0, 0, 0, 0, 0, 0, 0] ⟨7, 0⟩
    (by decide) (by decide) (by decide)
    statusAllZeroResult statusAllZeroResult
    manage_all_zero_report manage_all_zero_report

/-- Claim C9: a report arriving on any endpoint other than interface 7,
endpoint 0 leaves the stored mix state unchanged and returns a
`ChatMixState` with `device_status = none` and the previously stored
fractions — even when its leading bytes match a recognized pattern. -/
theorem foreign_endpoint_preserves_state (st : DriverState) (data : List Nat)
    (e : InterfaceEndpoint) (he : e ≠ ⟨7, 0⟩) :
    manage_input_data st data e =
      (st, .ok { game_volume := 1, chat_volume := 1,
                 game_mix := st.game_mix.getD 1, chat_mix := st.chat_mix.getD 1,
                 device_status := none }) := by
  unfold manage_input_data
  rw [if_neg he]
  rfl

/-- Claim C9 witness: a full status-pattern report delivered on interface 3
is ignored: stored fractions survive and no status is decoded. -/
theorem foreign_endpoint_preserves_state_witness :
    manage_input_data ⟨some (1 / 2), none⟩
      [0x06, 0xb0, 0, 0, 0, 0, 0, 0, 0, 0, 0, 0, 0, 0, 0, 0] ⟨3, 0⟩ =
      (⟨some (1 / 2), none⟩, .ok ⟨1, 1, 1 / 2, 1, none⟩) :=
  foreign_endpoint_preserves_state ⟨some (1 / 2), none⟩
    [0x06, 0xb0, 0, 0, 0, 0, 0, 0, 0, 0, 0, 0, 0, 0, 0, 0] ⟨3, 0⟩ (by decide)

/-- Claim C10: the settings catalog does not depend on the optional
`DeviceStatus` argument — any two statuses (including `none`) yield
identical section names, setting kinds, bounds and current values, so in
particular two reads with the same status agree and a read mutates
nothing. -/
theorem configurable_settings_ignore_status (s1 s2 : Option DeviceStatus) :
    get_configurable_settings s1 = get_configurable_settings s2 :=
  rfl

end ArctisNovaProWireless
